import Mathlib

/-!
Verification of the Stockify core forecasting engines against their
natural-language specification.  The Python modules
(models/hybrid_predictor.py, models/historical_predictor.py,
models/sentiment_analyzer.py, models/currency_utils.py) are shallowly
embedded over exact rationals: machine floats become rationals with the
code's literal decimal constants, Python round(x, k) becomes rounding
half-to-even on rationals, pandas NaN propagation becomes Option, and a
caught Python exception becomes the structured failure value the caller
observes.  External effects (network fetches, yfinance data, TextBlob
polarity, ML training) enter as explicit parameters.
-/

/-- Python round-half-to-even on a rational, to an integer. -/
def pyRound (x : ℚ) : ℤ :=
  let f := ⌊x⌋
  let r := x - f
  if r < 1/2 then f
  else if 1/2 < r then f + 1
  else if f % 2 = 0 then f else f + 1

/-- Python round(x, 2). -/
def round2 (x : ℚ) : ℚ := (pyRound (x * 100) : ℚ) / 100

/-- Python round(x, 0) (used for the sentiment score). -/
def round0 (x : ℚ) : ℚ := (pyRound x : ℚ)

/-- Python round(x, 3) (used for polarity). -/
def round3 (x : ℚ) : ℚ := (pyRound (x * 1000) : ℚ) / 1000

/-- Arithmetic mean of a list; Python/pandas mean of an empty series is
degenerate (NaN) and this total model returns 0 there (division by zero
in ℚ), which is only reached behind non-empty guards in the code. -/
def listMean (xs : List ℚ) : ℚ := xs.sum / xs.length

/-- One OHLCV bar, restricted to the two fields the core reads. -/
structure PriceBar where
  close : ℚ
  volume : ℚ
deriving DecidableEq, Repr

namespace CurrencyUtils

/-- models/currency_utils.py is_indian_stock: symbol.upper() followed by
str.endswith, spelled over the character lists (tickers are ASCII, where
Python str.upper is the per-character upcase). -/
def is_indian_stock (symbol : String) : Bool :=
  [".NS", ".BO", ".BSE", ".NSE"].any
    (fun suffix => suffix.data.isSuffixOf (symbol.data.map Char.toUpper))

/-- models/currency_utils.py fetch_live_exchange_rate.  The four fetch
sources are parameters: m1 is the USDINR=X close (none when the fetch
failed or the frame was empty), m2 the INR=X close (the code inverts it;
a zero close raises inside the try and is skipped), m3 and m4 the two
HTTP API rates (none also covers the falsy-JSON case the code tests). -/
def fetch_live_exchange_rate (m1 m2 m3 m4 : Option ℚ) : ℚ :=
  let c1 : Option ℚ := m1.bind (fun rate => if 70 < rate ∧ rate < 100 then some rate else none)
  let c2 : Option ℚ := m2.bind (fun c =>
    if c = 0 then none
    else if 70 < 1 / c ∧ 1 / c < 100 then some (1 / c) else none)
  let c3 : Option ℚ := m3.bind (fun rate =>
    if rate ≠ 0 ∧ 70 < rate ∧ rate < 100 then some rate else none)
  let c4 : Option ℚ := m4.bind (fun rate =>
    if rate ≠ 0 ∧ 70 < rate ∧ rate < 100 then some rate else none)
  (((c1.orElse (fun _ => c2)).orElse (fun _ => c3)).orElse (fun _ => c4)).getD 83

/-- models/currency_utils.py get_usd_to_inr_rate as one step over the
module-level cache: the state is the cached rate (None initially) and
stale abbreviates the timestamp test (LAST_RATE_UPDATE is None or more
than 3600s old).  Returns the rate handed to callers and the new cache. -/
def get_usd_to_inr_rate (cache : Option ℚ) (stale : Bool)
    (m1 m2 m3 m4 : Option ℚ) : ℚ × Option ℚ :=
  let should_update := cache.isNone || stale
  if should_update then
    let r := fetch_live_exchange_rate m1 m2 m3 m4
    (r, some r)
  else
    (cache.getD 83, cache)

/-- models/currency_utils.py convert_price_to_inr, with the rate the
cache step produced passed explicitly. -/
def convert_price_to_inr (price : ℚ) (symbol : String) (rate : ℚ) : ℚ :=
  if is_indian_stock symbol then price else price * rate

/-- models/currency_utils.py convert_prices_array_to_inr.  Beware of the
aliasing this value-level model cannot show: for an Indian-suffix symbol
the Python function returns the argument list object itself, so later
in-place mutation of the argument is visible through the result; a
caller that mutates after converting must model the Indian branch with
the mutated list (see SentimentAnalyzer.pathA). -/
def convert_prices_array_to_inr (prices : List ℚ) (symbol : String) (rate : ℚ) : List ℚ :=
  if is_indian_stock symbol then prices else prices.map (fun price => price * rate)

/-- A rate is acceptable when it passed a source sanity band or is the
fallback constant. -/
def rateValid (r : ℚ) : Prop := (70 < r ∧ r < 100) ∨ r = 83

/-- The cache is either unset or holds an acceptable rate. -/
def cacheInv : Option ℚ → Prop
  | none => True
  | some r => rateValid r

end CurrencyUtils

namespace HybridPredictor

/-- The fields of the historical_predictor result dictionary that
models/hybrid_predictor.py reads; mae is Option because the code uses
dict.get with per-call-site defaults. -/
structure HistoricalData where
  mae : Option ℚ
  predictions : List ℚ

/-- The fields of the sentiment result dictionary that
models/hybrid_predictor.py reads. -/
structure SentimentData where
  confidence : Option ℚ
  sentiment_score : Option ℚ
  predictions : List ℚ

/-- models/hybrid_predictor.py combine_predictions: returns the combined
curve and the (historical, sentiment) weight pair. -/
def combine_predictions (h : HistoricalData) (s : SentimentData) :
    List ℚ × ℚ × ℚ :=
  let historical_mae := h.mae.getD 1
  let historical_accuracy := 1 / (1 + historical_mae)
  let sentiment_confidence := s.confidence.getD 50 / 100
  let total_weight := historical_accuracy + sentiment_confidence
  let historical_weight :=
    if 0 < total_weight then historical_accuracy / total_weight else 7/10
  let sentiment_weight :=
    if 0 < total_weight then sentiment_confidence / total_weight else 3/10
  if h.predictions.isEmpty && s.predictions.isEmpty then
    ([], historical_weight, sentiment_weight)
  else if h.predictions.isEmpty then
    (s.predictions, 0, 1)
  else if s.predictions.isEmpty then
    (h.predictions, 1, 0)
  else
    (List.zipWith (fun a b => round2 (a * historical_weight + b * sentiment_weight))
      h.predictions s.predictions,
     historical_weight, sentiment_weight)

/-- The four (name, value) risk factors of calculate_risk_score. -/
def riskFactors (h : HistoricalData) (s : SentimentData)
    (price_change_percent : ℚ) : List (String × ℚ) :=
  let mae := h.mae.getD 0
  let sentiment_score := s.sentiment_score.getD 50
  let confidence := s.confidence.getD 50
  [("Model Accuracy Risk", min (mae * 10) 30),
   ("Sentiment Volatility", |50 - sentiment_score| / 2),
   ("Price Volatility", min (|price_change_percent| * 2) 25),
   ("Market Uncertainty", (100 - confidence) / 5)]

/-- total_risk in calculate_risk_score. -/
def totalRisk (h : HistoricalData) (s : SentimentData)
    (price_change_percent : ℚ) : ℚ :=
  ((riskFactors h s price_change_percent).map (fun f => f.2)).sum

/-- The risk-level / recommendation / color banding if-chain of
calculate_risk_score, as a function of total_risk. -/
def riskBand (total_risk : ℚ) : String × String × String :=
  if total_risk < 25 then ("Low Risk", "Strong Buy", "#10b981")
  else if total_risk < 40 then ("Low-Medium Risk", "Buy", "#22c55e")
  else if total_risk < 55 then ("Medium Risk", "Hold", "#f59e0b")
  else if total_risk < 70 then ("Medium-High Risk", "Sell", "#f97316")
  else ("High Risk", "Strong Sell", "#ef4444")

/-- The dictionary calculate_risk_score returns. -/
structure RiskAnalysis where
  risk_score : ℚ
  risk_level : String
  recommendation : String
  risk_color : String
  risk_factors : List (String × ℚ)

/-- models/hybrid_predictor.py calculate_risk_score. -/
def calculate_risk_score (h : HistoricalData) (s : SentimentData)
    (price_change_percent : ℚ) : RiskAnalysis :=
  let t := totalRisk h s price_change_percent
  let band := riskBand t
  { risk_score := round2 t
    risk_level := band.1
    recommendation := band.2.1
    risk_color := band.2.2
    risk_factors := (riskFactors h s price_change_percent).map
      (fun f => (f.1, round2 f.2)) }

end HybridPredictor

namespace HistoricalPredictor

/-- Sequence a list of optional values; none if any entry is none
(pandas NaN propagation through a rolling window). -/
def optList : List (Option ℚ) → Option (List ℚ)
  | [] => some []
  | none :: _ => none
  | some x :: rest => (optList rest).map (fun l => x :: l)

/-- pandas Series.rolling(window=w).apply-style combinator: defined at
index i only when the window [i+1-w, i] is full and every entry of the
underlying column is defined there. -/
def rolling (w : ℕ) (col : ℕ → Option ℚ) (f : List ℚ → ℚ) (i : ℕ) : Option ℚ :=
  if w ≤ i + 1 then
    (optList ((List.range w).map (fun j => col (i + 1 - w + j)))).map f
  else none

/-- Sample variance (pandas std uses ddof=1; the std column itself is the
square root of this, which is irrational in general — only the variance
is carried, and below only definedness of the std columns is consumed,
which coincides with definedness of the variance). -/
def var1 (xs : List ℚ) : ℚ :=
  (xs.map (fun x => (x - listMean xs) ^ 2)).sum / ((xs.length : ℚ) - 1)

/-- df['Close'] at row i. -/
def closeAt (df : List PriceBar) (i : ℕ) : Option ℚ := (df.get? i).map (fun b => b.close)

/-- df['Volume'] at row i. -/
def volumeAt (df : List PriceBar) (i : ℕ) : Option ℚ := (df.get? i).map (fun b => b.volume)

/-- df['Close'].rolling(window=w).mean() at row i (MA_7 / MA_21 / MA_50 /
BB_Middle). -/
def ma (df : List PriceBar) (w i : ℕ) : Option ℚ := rolling w (closeAt df) listMean i

/-- df['Close'].diff() at row i (NaN at row 0). -/
def deltaAt (df : List PriceBar) (i : ℕ) : Option ℚ :=
  if 1 ≤ i then
    (closeAt df i).bind (fun c => (closeAt df (i - 1)).map (fun p => c - p))
  else none

/-- delta.where(delta > 0, 0) at row i. -/
def gainAt (df : List PriceBar) (i : ℕ) : Option ℚ :=
  (deltaAt df i).map (fun d => if 0 < d then d else 0)

/-- (-delta.where(delta < 0, 0)) at row i. -/
def lossAt (df : List PriceBar) (i : ℕ) : Option ℚ :=
  (deltaAt df i).map (fun d => if d < 0 then -d else 0)

/-- gain.rolling(window=14).mean() at row i. -/
def gainAvg (df : List PriceBar) (i : ℕ) : Option ℚ := rolling 14 (gainAt df) listMean i

/-- loss.rolling(window=14).mean() at row i. -/
def lossAvg (df : List PriceBar) (i : ℕ) : Option ℚ := rolling 14 (lossAt df) listMean i

/-- df['RSI'] at row i: rs = gain / loss.replace(0, 0.001);
RSI = 100 - 100/(1+rs). -/
def rsiAt (df : List PriceBar) (i : ℕ) : Option ℚ :=
  (gainAvg df i).bind (fun g => (lossAvg df i).map (fun l =>
    let rs := g / (if l = 0 then 1/1000 else l)
    100 - 100 / (1 + rs)))

/-- Tail of pandas ewm(span, adjust=False).mean(): each step is
y = (1-alpha)*prev + alpha*x. -/
def emaFrom (alpha prev : ℚ) : List ℚ → List ℚ
  | [] => []
  | x :: xs =>
    let y := (1 - alpha) * prev + alpha * x
    y :: emaFrom alpha y xs

/-- pandas ewm(span, adjust=False).mean() over a full column, with
alpha = 2/(span+1); the first output equals the first input. -/
def emaList (alpha : ℚ) : List ℚ → List ℚ
  | [] => []
  | x :: xs => x :: emaFrom alpha x xs

/-- The close column as a plain list. -/
def closes (df : List PriceBar) : List ℚ := df.map (fun b => b.close)

/-- df['MACD'] = ewm(span=12) - ewm(span=26) as a column list. -/
def macdList (df : List PriceBar) : List ℚ :=
  List.zipWith (fun a b => a - b) (emaList (2/13) (closes df)) (emaList (2/27) (closes df))

/-- df['MACD'] at row i. -/
def macdAt (df : List PriceBar) (i : ℕ) : Option ℚ := (macdList df).get? i

/-- df['Signal_Line'] = MACD.ewm(span=9, adjust=False).mean() at row i. -/
def signalLineAt (df : List PriceBar) (i : ℕ) : Option ℚ :=
  (emaList (2/10) (macdList df)).get? i

/-- Variance underlying the Bollinger band std (window 20). -/
def bbVar (df : List PriceBar) (i : ℕ) : Option ℚ := rolling 20 (closeAt df) var1 i

/-- df['Volume_MA'] at row i. -/
def volumeMA (df : List PriceBar) (i : ℕ) : Option ℚ := rolling 20 (volumeAt df) listMean i

/-- df['Volume_Ratio'] = Volume / Volume_MA.replace(0, 1) at row i. -/
def volumeRatioAt (df : List PriceBar) (i : ℕ) : Option ℚ :=
  (volumeAt df i).bind (fun v => (volumeMA df i).map (fun m =>
    v / (if m = 0 then 1 else m)))

/-- df['Momentum'] = Close - Close.shift(10) at row i. -/
def momentumAt (df : List PriceBar) (i : ℕ) : Option ℚ :=
  if 10 ≤ i then
    (closeAt df i).bind (fun c => (closeAt df (i - 10)).map (fun p => c - p))
  else none

/-- Variance underlying df['Volatility'] = Close.rolling(10).std(). -/
def volatilityVar (df : List PriceBar) (i : ℕ) : Option ℚ := rolling 10 (closeAt df) var1 i

/-- Row i survives df.dropna() in prepare_features: every derived column
is defined there (std-based columns are defined exactly when their
variance is). -/
def retainedRow (df : List PriceBar) (i : ℕ) : Bool :=
  (closeAt df i).isSome && (volumeAt df i).isSome &&
  (ma df 7 i).isSome && (ma df 21 i).isSome && (ma df 50 i).isSome &&
  (rsiAt df i).isSome && (macdAt df i).isSome && (signalLineAt df i).isSome &&
  (ma df 20 i).isSome && (bbVar df i).isSome &&
  (volumeMA df i).isSome && (volumeRatioAt df i).isSome &&
  (momentumAt df i).isSome && (volatilityVar df i).isSome

/-- Number of feature rows prepare_features returns. -/
def featureRowCount (df : List PriceBar) : ℕ :=
  ((List.range df.length).filter (fun i => retainedRow df i)).length

/-- len(X) after create_sequences(..., sequence_length=30): one training
example per feature row beyond the first 30. -/
def numSequences (df : List PriceBar) : ℕ := featureRowCount df - 30

/-- models/historical_predictor.py predict, up to the data-sufficiency
gate: an empty history returns Python None, as does len(X) == 0 (the
path with zero feature rows reaches the same None through the caught
scaler exception).  The trained-model branch is abstracted to the
example count, since training is an external numeric process and every
claim below concerns only the insufficient-data behaviour. -/
def predict (df : List PriceBar) : Option ℕ :=
  if df.isEmpty then none
  else if numSequences df = 0 then none
  else some (numSequences df)

end HistoricalPredictor

namespace SentimentAnalyzer

/-- Last k elements of a list (pandas Series.tail(k)). -/
def tailK (k : ℕ) (xs : List ℚ) : List ℚ := xs.drop (xs.length - k)

/-- The close column of the 3-month history. -/
def closesOf (hist : List PriceBar) : List ℚ := hist.map (fun b => b.close)

/-- The volume column of the 3-month history. -/
def volumesOf (hist : List PriceBar) : List ℚ := hist.map (fun b => b.volume)

/-- pandas pct_change().dropna(): consecutive relative changes (the
leading NaN dropped).  A zero previous close is degenerate in the
floats (inf) and is modelled by total division in ℚ. -/
def pctChangesAux (prev : ℚ) : List ℚ → List ℚ
  | [] => []
  | y :: ys => (y - prev) / prev :: pctChangesAux y ys

/-- pct_change over a close column. -/
def pctChanges : List ℚ → List ℚ
  | [] => []
  | x :: xs => pctChangesAux x xs

/-- The price-history context analyze derives before branching:
current price, 1w/1m/3m percent changes, volatility, 10-day mean
return, volume trend. -/
structure Stats where
  current_price : ℚ
  price_change_1w : ℚ
  price_change_1m : ℚ
  price_change_3m : ℚ
  volatility : ℚ
  recent_returns : ℚ
  volume_trend : ℚ
deriving DecidableEq, Repr

/-- Lines 263-295 of models/sentiment_analyzer.py.  vol stands for the
computed returns.std()*100 (irrational in general, hence a parameter;
for a flat history it is exactly 0), cpInfo for the
info-derived price fallback of the short-history branch. -/
def computeStats (hist : List PriceBar) (vol cpInfo : ℚ) : Stats :=
  if 20 < hist.length then
    let cs := closesOf hist
    let current_price := (cs.get? (cs.length - 1)).getD 0
    let week_ago_price := (cs.get? (cs.length - 5)).getD 0
    let month_ago_price := (cs.get? (cs.length - 20)).getD 0
    let three_month_ago_price := (cs.get? 0).getD 0
    let price_change_1w :=
      if 0 < week_ago_price then (current_price - week_ago_price) / week_ago_price * 100 else 0
    let price_change_1m :=
      if 0 < month_ago_price then (current_price - month_ago_price) / month_ago_price * 100 else 0
    let price_change_3m :=
      if 0 < three_month_ago_price then
        (current_price - three_month_ago_price) / three_month_ago_price * 100 else 0
    let recent_returns := listMean (tailK 10 (pctChanges cs)) * 100
    let avg_volume := listMean (volumesOf hist)
    let volume_trend :=
      if 0 < avg_volume then listMean (tailK 5 (volumesOf hist)) / avg_volume - 1 else 0
    ⟨current_price, price_change_1w, price_change_1m, price_change_3m,
     vol, recent_returns, volume_trend⟩
  else
    ⟨cpInfo, 0, 0, 0, 5, 0, 0⟩

/-- weighted_performance = 0.5*(1w) + 0.3*(1m) + 0.2*(3m). -/
def weightedPerformance (st : Stats) : ℚ :=
  st.price_change_1w * (1/2) + st.price_change_1m * (3/10) + st.price_change_3m * (1/5)

/-- The 10-day momentum both vote sections compute directly from
hist['Close'].tail(10); on an empty history the Python raises IndexError
at this point (handled by the caller's failure branch, so the 0 default
here is unreachable from analyze). -/
def momentum10 (hist : List PriceBar) : ℚ :=
  let recent_prices := tailK 10 (closesOf hist)
  let start_price := (recent_prices.get? 0).getD 0
  let last_price := (recent_prices.get? (recent_prices.length - 1)).getD 0
  if 0 < start_price then (last_price - start_price) / start_price * 100 else 0

/-- volume_ratio of the Path B volume indicator. -/
def volumeRatio5 (hist : List PriceBar) : ℚ :=
  let avg_volume := listMean (volumesOf hist)
  if 0 < avg_volume then listMean (tailK 5 (volumesOf hist)) / avg_volume else 1

/-- One indicator vote. -/
inductive Vote
  | positive
  | negative
  | neutral
deriving DecidableEq, Repr

/-- The five weighted indicator votes of the no-articles path
(weights 0.25, 0.20, 0.15, 0.20, 0.20). -/
def pathBVotes (st : Stats) (hist : List PriceBar) : List (Vote × ℚ) :=
  let wp := weightedPerformance st
  [(if 2 < st.price_change_1w then Vote.positive
    else if st.price_change_1w < -2 then Vote.negative else Vote.neutral, 1/4),
   (if 5 < st.price_change_1m then Vote.positive
    else if st.price_change_1m < -5 then Vote.negative else Vote.neutral, 1/5),
   (if st.volatility < 1/50 then Vote.neutral
    else if 1/20 < st.volatility then
      (if 0 < wp then Vote.positive else Vote.negative)
    else Vote.neutral, 3/20),
   (if 1 < momentum10 hist then Vote.positive
    else if momentum10 hist < -1 then Vote.negative else Vote.neutral, 1/5),
   (if 6/5 < volumeRatio5 hist then
      (if 0 < wp then Vote.positive else Vote.negative)
    else Vote.neutral, 1/5)]

/-- The article-sentiment vote plus four performance votes of the
articles path (weights min(n/20,1)*0.4, 0.15, 0.15, 0.10, 0.10). -/
def pathAVotes (avg_sentiment : ℚ) (nArticles : ℕ) (st : Stats)
    (hist : List PriceBar) : List (Vote × ℚ) :=
  let wp := weightedPerformance st
  let news_weight := min ((nArticles : ℚ) / 20) 1 * (2/5)
  [(if 1/10 < avg_sentiment then Vote.positive
    else if avg_sentiment < -(1/10) then Vote.negative else Vote.neutral, news_weight),
   (if 2 < st.price_change_1w then Vote.positive
    else if st.price_change_1w < -2 then Vote.negative else Vote.neutral, 3/20),
   (if 5 < st.price_change_1m then Vote.positive
    else if st.price_change_1m < -5 then Vote.negative else Vote.neutral, 3/20),
   (if st.volatility < 1/50 then Vote.neutral
    else if 1/20 < st.volatility then
      (if 0 < wp then Vote.positive else Vote.negative)
    else Vote.neutral, 1/10),
   (if 1 < momentum10 hist then Vote.positive
    else if momentum10 hist < -1 then Vote.negative else Vote.neutral, 1/10)]

/-- positive_score: accumulated weight of positive votes. -/
def posScore (votes : List (Vote × ℚ)) : ℚ :=
  ((votes.filter (fun v => v.1 = Vote.positive)).map (fun v => v.2)).sum

/-- negative_score. -/
def negScore (votes : List (Vote × ℚ)) : ℚ :=
  ((votes.filter (fun v => v.1 = Vote.negative)).map (fun v => v.2)).sum

/-- neutral_score. -/
def neutScore (votes : List (Vote × ℚ)) : ℚ :=
  ((votes.filter (fun v => v.1 = Vote.neutral)).map (fun v => v.2)).sum

/-- Total indicator weight of a path. -/
def weightSum (votes : List (Vote × ℚ)) : ℚ := (votes.map (fun v => v.2)).sum

/-- overall_sentiment_label from the weighted scores. -/
def overallLabel (votes : List (Vote × ℚ)) : String :=
  if negScore votes < posScore votes ∧ neutScore votes < posScore votes then "Positive"
  else if posScore votes < negScore votes ∧ neutScore votes < negScore votes then "Negative"
  else "Neutral"

/-- sentiment_score = max(0, min(100, (positive-negative)*100 + 50)). -/
def sentimentScoreOf (votes : List (Vote × ℚ)) : ℚ :=
  max 0 (min 100 ((posScore votes - negScore votes) * 100 + 50))

/-- categorize_sentiment of models/sentiment_analyzer.py. -/
def categorize_sentiment (polarity : ℚ) : String :=
  if 2/5 < polarity then "Very Positive"
  else if 3/20 < polarity then "Positive"
  else if -(3/20) < polarity then "Neutral"
  else if -(2/5) < polarity then "Negative"
  else "Very Negative"

/-- The analyze() result dictionary restricted to the specified fields;
a failure result carries success = false and message. -/
structure SentimentResult where
  success : Bool
  message : String
  overall_sentiment : String
  sentiment_score : ℚ
  polarity : ℚ
  positive_count : ℕ
  negative_count : ℕ
  neutral_count : ℕ
  total_indicators : ℕ
  total_articles : ℕ
  confidence : ℚ
  current_price : ℚ
  predicted_change_percent : ℚ
  predictions : List ℚ
  performance_1w : ℚ
  performance_1m : ℚ
  performance_3m : ℚ
  volatility : ℚ

/-- The {success: False, message} dictionary the outer except returns
when a statement inside analyze raises. -/
def failureResult (message : String) : SentimentResult :=
  { success := false
    message := message
    overall_sentiment := ""
    sentiment_score := 0
    polarity := 0
    positive_count := 0
    negative_count := 0
    neutral_count := 0
    total_indicators := 0
    total_articles := 0
    confidence := 0
    current_price := 0
    predicted_change_percent := 0
    predictions := []
    performance_1w := 0
    performance_1m := 0
    performance_3m := 0
    volatility := 0 }

/-- Lines 297-498 of models/sentiment_analyzer.py: the no-articles path.
The categorize_sentiment relabel of final_sentiment is kept only through
the returned polarity; the label the dictionary reports is the weighted
overall label.  Indicator 4 of the vote section indexes
hist['Close'].tail(10).iloc[0] (line 386), so an empty history raises
IndexError there and the boundary except yields the failure dictionary;
everything computed before the raise is discarded, so the guard sits at
the head of this pure model. -/
def pathB (symbol : String) (rate : ℚ) (hist : List PriceBar) (st : Stats) :
    SentimentResult :=
  if hist.isEmpty then failureResult "index 0 is out of bounds for axis 0 with size 0" else
  let wp := weightedPerformance st
  let base_sentiment : ℚ :=
    if 15 < wp then 7/10
    else if 5 < wp then 2/5
    else if 0 < wp then 3/20
    else if -5 < wp then -(3/20)
    else if -15 < wp then -(2/5)
    else -(7/10)
  let momentum_adjustment := min (max (st.recent_returns * (1/50)) (-(1/5))) (1/5)
  let volatility_penalty := min (st.volatility * (3/200)) (1/4)
  let volume_adjustment : ℚ :=
    if 0 < st.price_change_1w ∧ 0 < st.volume_trend then 1/10
    else if st.price_change_1w < 0 ∧ 0 < st.volume_trend then -(1/10)
    else 0
  let final_sentiment :=
    max (-1) (min 1 (base_sentiment + momentum_adjustment - volatility_penalty + volume_adjustment))
  let votes := pathBVotes st hist
  let sentiment_score := sentimentScoreOf votes
  let sentiment_impact_factor := (sentiment_score - 50) / 50
  let sentiment_impact := sentiment_impact_factor * (2/25)
  let momentum_impact := wp / 100 * (1/50)
  let total_impact := sentiment_impact + momentum_impact
  let predicted_change_percent := total_impact * 100
  let predictions := (List.range 14).map (fun d =>
    round2 (st.current_price * (1 + total_impact * (1 - ((d : ℚ) + 1) * (1/25)))))
  let predictions_inr := CurrencyUtils.convert_prices_array_to_inr predictions symbol rate
  let data_confidence := min ((hist.length : ℚ) / 120 * 100) 100
  let volatility_confidence := max 0 (100 - st.volatility * 8)
  let performance_confidence := 100 - |wp|
  let confidence :=
    max 30 (min 85 (data_confidence * (2/5) + volatility_confidence * (2/5) +
      performance_confidence * (1/5)))
  { success := true
    message := ""
    overall_sentiment := overallLabel votes
    sentiment_score := round0 sentiment_score
    polarity := round3 final_sentiment
    positive_count := (votes.filter (fun v => v.1 = Vote.positive)).length
    negative_count := (votes.filter (fun v => v.1 = Vote.negative)).length
    neutral_count := (votes.filter (fun v => v.1 = Vote.neutral)).length
    total_indicators := votes.length
    total_articles := 0
    confidence := round2 confidence
    current_price := round2 (CurrencyUtils.convert_price_to_inr st.current_price symbol rate)
    predicted_change_percent := round2 predicted_change_percent
    predictions := predictions_inr.map round2
    performance_1w := round2 st.price_change_1w
    performance_1m := round2 st.price_change_1m
    performance_3m := round2 st.price_change_3m
    volatility := round2 st.volatility }

/-- Lines 500-728 of models/sentiment_analyzer.py: the articles path.
sentiments is the list of TextBlob title polarities of articles[:20];
sentStd is the computed polarity standard deviation (irrational in
general, hence a parameter; 0 when all polarities coincide).  Two
statements can raise before the return, in this order: line 568 divides
by current_price, which is the Python info fallback (a plain scalar)
exactly when the history had at most 20 bars, raising
ZeroDivisionError when it is 0 (with more than 20 bars it is a numpy
float and a zero gives inf, not a raise); and line 647 indexes
hist['Close'].tail(10).iloc[0], raising IndexError on an empty history.
The value line 568 assigns is otherwise dead (overwritten at line 700).
On the success path the returned curve is the list bound at line 586:
convert_prices_array_to_inr returns its argument list object itself for
an Indian-suffix symbol, so the sentiment-consistent prices the second
loop (lines 702-705) appends to the raw list are visible through that
alias and the output has 28 entries; for a foreign symbol the binding
is a fresh converted copy of the first 14 prices and the appends are
lost. -/
def pathA (symbol : String) (rate : ℚ) (hist : List PriceBar) (st : Stats)
    (sentiments : List ℚ) (sentStd : ℚ) : SentimentResult :=
  let avg_sentiment := if sentiments.isEmpty then 0 else listMean sentiments
  let wp := weightedPerformance st
  let performance_adjustment := wp * (3/200)
  let adjusted_sentiment := avg_sentiment * (3/5) + performance_adjustment * (2/5)
  let volatility_penalty := min (st.volatility * (3/200)) (1/4)
  let momentum_adjustment := min (max (st.recent_returns * (1/50)) (-(3/20))) (3/20)
  let final_sentiment :=
    max (-1) (min 1 (adjusted_sentiment + momentum_adjustment - volatility_penalty))
  let news_impact := if sentiments.isEmpty then 0 else avg_sentiment * (1/20)
  let performance_impact := (st.price_change_1w + st.price_change_1m) / 2 * (1/100)
  let volatility_impact := -st.volatility * (1/50)
  let total_impact := news_impact + performance_impact + volatility_impact
  let predictions := (List.range 14).map (fun d =>
    round2 (st.current_price * (1 + total_impact * (1 - ((d : ℚ) + 1) * (3/100)))))
  if hist.length ≤ 20 ∧ st.current_price = 0 then
    failureResult "float division by zero"
  else if hist.isEmpty then
    failureResult "index 0 is out of bounds for axis 0 with size 0"
  else
  let article_confidence := min ((sentiments.length : ℚ) / 20 * 100) 100
  let consistency_confidence := max 0 ((1 - sentStd) * 100)
  let volatility_confidence := max 0 (100 - st.volatility * 8)
  let confidence :=
    max 40 (min 95 (article_confidence * (2/5) + consistency_confidence * (3/10) +
      volatility_confidence * (3/10)))
  let votes := pathAVotes avg_sentiment sentiments.length st hist
  let sentiment_score := sentimentScoreOf votes
  let sentiment_impact := (sentiment_score - 50) / 50 * (2/25)
  let momentum_impact := wp / 100 * (1/50)
  let total_impact2 := sentiment_impact + momentum_impact
  let predicted_change_percent := total_impact2 * 100
  let predictions2 := predictions ++ (List.range 14).map (fun d =>
    round2 (st.current_price * (1 + total_impact2 * (1 - ((d : ℚ) + 1) * (1/25)))))
  let predictions_inr :=
    if CurrencyUtils.is_indian_stock symbol then predictions2
    else predictions.map (fun p => p * rate)
  { success := true
    message := ""
    overall_sentiment := overallLabel votes
    sentiment_score := round0 sentiment_score
    polarity := round3 final_sentiment
    positive_count := (votes.filter (fun v => v.1 = Vote.positive)).length
    negative_count := (votes.filter (fun v => v.1 = Vote.negative)).length
    neutral_count := (votes.filter (fun v => v.1 = Vote.neutral)).length
    total_indicators := votes.length
    total_articles := sentiments.length
    confidence := round2 confidence
    current_price := round2 (CurrencyUtils.convert_price_to_inr st.current_price symbol rate)
    predicted_change_percent := round2 predicted_change_percent
    predictions := predictions_inr.map round2
    performance_1w := round2 st.price_change_1w
    performance_1m := round2 st.price_change_1m
    performance_3m := round2 st.price_change_3m
    volatility := round2 st.volatility }

/-- models/sentiment_analyzer.py analyze().  articlePolarities are the
TextBlob polarities of the fetched article titles (empty when no news
source produced articles, which routes to Path B); the raising
statements of each path (line 386 / lines 568 and 647) are modelled
inside pathB and pathA, whose failure branches are the dictionaries the
boundary except returns. -/
def analyze (symbol : String) (rate : ℚ) (hist : List PriceBar)
    (articlePolarities : List ℚ) (vol sentStd cpInfo : ℚ) : SentimentResult :=
  let st := computeStats hist vol cpInfo
  if articlePolarities.isEmpty then pathB symbol rate hist st
  else pathA symbol rate hist st (articlePolarities.take 20) sentStd

end SentimentAnalyzer

lemma zipWith_get?_eq (f : ℚ → ℚ → ℚ) :
    ∀ (l1 l2 : List ℚ) (i : ℕ) (a b : ℚ), l1.get? i = some a → l2.get? i = some b →
      (List.zipWith f l1 l2).get? i = some (f a b) := by
  intro l1
  induction l1 with
  | nil => intro l2 i a b ha; simp at ha
  | cons x xs ih =>
      intro l2 i a b ha hb
      cases l2 with
      | nil => simp at hb
      | cons y ys =>
          cases i with
          | zero =>
              simp only [List.get?] at ha hb
              obtain rfl : x = a := by injection ha
              obtain rfl : y = b := by injection hb
              rfl
          | succ k =>
              simpa using ih ys k a b (by simpa using ha) (by simpa using hb)

namespace HybridPredictor

/-- C3: with MAE ≥ 0, sentiment_score ∈ [0,100] and confidence ∈ [0,100],
the risk score is the sum of the four capped nonnegative factors
min(MAE*10, 30), |50-score|/2, min(|pct|*2, 25) and (100-confidence)/5,
and that sum lies in [0,100]; the returned risk_score field is that sum
rounded to two decimals. -/
theorem c3_risk_score_sum_bounded (h : HistoricalData) (s : SentimentData) (p : ℚ)
    (hm : 0 ≤ h.mae.getD 0)
    (hs0 : 0 ≤ s.sentiment_score.getD 50) (hs1 : s.sentiment_score.getD 50 ≤ 100)
    (hc0 : 0 ≤ s.confidence.getD 50) (hc1 : s.confidence.getD 50 ≤ 100) :
    (0 ≤ min (h.mae.getD 0 * 10) 30 ∧ min (h.mae.getD 0 * 10) 30 ≤ 30) ∧
    (0 ≤ |50 - s.sentiment_score.getD 50| / 2 ∧ |50 - s.sentiment_score.getD 50| / 2 ≤ 25) ∧
    (0 ≤ min (|p| * 2) 25 ∧ min (|p| * 2) 25 ≤ 25) ∧
    (0 ≤ (100 - s.confidence.getD 50) / 5 ∧ (100 - s.confidence.getD 50) / 5 ≤ 20) ∧
    totalRisk h s p =
      min (h.mae.getD 0 * 10) 30 + |50 - s.sentiment_score.getD 50| / 2 +
        min (|p| * 2) 25 + (100 - s.confidence.getD 50) / 5 ∧
    0 ≤ totalRisk h s p ∧ totalRisk h s p ≤ 100 ∧
    (calculate_risk_score h s p).risk_score = round2 (totalRisk h s p) := by
  have habs : |50 - s.sentiment_score.getD 50| ≤ 50 := by
    rw [abs_le]; constructor <;> linarith
  have f1 : 0 ≤ min (h.mae.getD 0 * 10) 30 :=
    le_min (by nlinarith) (by norm_num)
  have f2u : |50 - s.sentiment_score.getD 50| / 2 ≤ 25 := by linarith
  have f2l : 0 ≤ |50 - s.sentiment_score.getD 50| / 2 := by positivity
  have f3 : 0 ≤ min (|p| * 2) 25 := le_min (by positivity) (by norm_num)
  have f4l : 0 ≤ (100 - s.confidence.getD 50) / 5 := by linarith
  have f4u : (100 - s.confidence.getD 50) / 5 ≤ 20 := by linarith
  have etot : totalRisk h s p =
      min (h.mae.getD 0 * 10) 30 + |50 - s.sentiment_score.getD 50| / 2 +
        min (|p| * 2) 25 + (100 - s.confidence.getD 50) / 5 := by
    simp [totalRisk, riskFactors]; ring
  refine ⟨⟨f1, min_le_right _ _⟩, ⟨f2l, f2u⟩, ⟨f3, min_le_right _ _⟩, ⟨f4l, f4u⟩, etot, ?_, ?_, rfl⟩
  · rw [etot]; linarith
  · rw [etot]
    have := min_le_right (h.mae.getD 0 * 10) 30
    have := min_le_right (|p| * 2) 25
    linarith

theorem c3_risk_score_sum_bounded_witness :
    (0:ℚ) ≤ (some (2:ℚ)).getD 0 ∧ (0:ℚ) ≤ (some (60:ℚ)).getD 50 ∧
      (some (60:ℚ)).getD 50 ≤ 100 ∧ (0:ℚ) ≤ (some (80:ℚ)).getD 50 ∧
      (some (80:ℚ)).getD 50 ≤ 100 ∧
    (0 ≤ totalRisk ⟨some 2, []⟩ ⟨some 80, some 60, []⟩ 3 ∧
      totalRisk ⟨some 2, []⟩ ⟨some 80, some 60, []⟩ 3 ≤ 100) := by
  have base := c3_risk_score_sum_bounded ⟨some 2, []⟩ ⟨some 80, some 60, []⟩ 3
    (by norm_num) (by norm_num) (by norm_num) (by norm_num) (by norm_num)
  exact ⟨by norm_num, by norm_num, by norm_num, by norm_num, by norm_num,
    base.2.2.2.2.2.1, base.2.2.2.2.2.2.1⟩

/-- C4: the risk level, recommendation and display color form a step
function of the total risk score alone, with bands <25 Strong Buy,
<40 Buy, <55 Hold, <70 Sell, ≥70 Strong Sell, and calculate_risk_score
reports exactly that banding of its total risk. -/
theorem c4_recommendation_step_function (t : ℚ) (h : HistoricalData)
    (s : SentimentData) (p : ℚ) :
    (t < 25 → riskBand t = ("Low Risk", "Strong Buy", "#10b981")) ∧
    (25 ≤ t → t < 40 → riskBand t = ("Low-Medium Risk", "Buy", "#22c55e")) ∧
    (40 ≤ t → t < 55 → riskBand t = ("Medium Risk", "Hold", "#f59e0b")) ∧
    (55 ≤ t → t < 70 → riskBand t = ("Medium-High Risk", "Sell", "#f97316")) ∧
    (70 ≤ t → riskBand t = ("High Risk", "Strong Sell", "#ef4444")) ∧
    (calculate_risk_score h s p).recommendation = (riskBand (totalRisk h s p)).2.1 ∧
    (calculate_risk_score h s p).risk_level = (riskBand (totalRisk h s p)).1 ∧
    (calculate_risk_score h s p).risk_color = (riskBand (totalRisk h s p)).2.2 := by
  refine ⟨?_, ?_, ?_, ?_, ?_, rfl, rfl, rfl⟩
  · intro h1; simp [riskBand, h1]
  · intro h1 h2
    simp [riskBand, h2, not_lt.mpr h1]
  · intro h1 h2
    simp [riskBand, h2, not_lt.mpr h1, not_lt.mpr (by linarith : (25:ℚ) ≤ t)]
  · intro h1 h2
    simp [riskBand, h2, not_lt.mpr h1, not_lt.mpr (by linarith : (25:ℚ) ≤ t),
      not_lt.mpr (by linarith : (40:ℚ) ≤ t)]
  · intro h1
    simp [riskBand, not_lt.mpr h1, not_lt.mpr (by linarith : (25:ℚ) ≤ t),
      not_lt.mpr (by linarith : (40:ℚ) ≤ t), not_lt.mpr (by linarith : (55:ℚ) ≤ t)]

theorem c4_recommendation_step_function_witness :
    ((10:ℚ) < 25 ∧ riskBand 10 = ("Low Risk", "Strong Buy", "#10b981")) ∧
    ((25:ℚ) ≤ 30 ∧ (30:ℚ) < 40 ∧ riskBand 30 = ("Low-Medium Risk", "Buy", "#22c55e")) ∧
    ((40:ℚ) ≤ 50 ∧ (50:ℚ) < 55 ∧ riskBand 50 = ("Medium Risk", "Hold", "#f59e0b")) ∧
    ((55:ℚ) ≤ 65 ∧ (65:ℚ) < 70 ∧ riskBand 65 = ("Medium-High Risk", "Sell", "#f97316")) ∧
    ((70:ℚ) ≤ 80 ∧ riskBand 80 = ("High Risk", "Strong Sell", "#ef4444")) :=
  ⟨⟨by norm_num, (c4_recommendation_step_function 10 ⟨none, []⟩ ⟨none, none, []⟩ 0).1
      (by norm_num)⟩,
   ⟨by norm_num, by norm_num,
    (c4_recommendation_step_function 30 ⟨none, []⟩ ⟨none, none, []⟩ 0).2.1
      (by norm_num) (by norm_num)⟩,
   ⟨by norm_num, by norm_num,
    (c4_recommendation_step_function 50 ⟨none, []⟩ ⟨none, none, []⟩ 0).2.2.1
      (by norm_num) (by norm_num)⟩,
   ⟨by norm_num, by norm_num,
    (c4_recommendation_step_function 65 ⟨none, []⟩ ⟨none, none, []⟩ 0).2.2.2.1
      (by norm_num) (by norm_num)⟩,
   ⟨by norm_num,
    (c4_recommendation_step_function 80 ⟨none, []⟩ ⟨none, none, []⟩ 0).2.2.2.2.1
      (by norm_num)⟩⟩

/-- C5: with both curves non-empty the combined curve has the length of
the shorter one and entry i = round2(A[i]*hw + B[i]*sw); with exactly
one curve empty the other is returned unchanged. -/
theorem c5_combine_shape (h : HistoricalData) (s : SentimentData) :
    (h.predictions ≠ [] → s.predictions ≠ [] →
      (combine_predictions h s).1.length =
        min h.predictions.length s.predictions.length ∧
      ∀ (i : ℕ) (a b : ℚ), h.predictions.get? i = some a →
        s.predictions.get? i = some b →
        (combine_predictions h s).1.get? i =
          some (round2 (a * (combine_predictions h s).2.1 +
            b * (combine_predictions h s).2.2))) ∧
    (h.predictions = [] → s.predictions ≠ [] →
      (combine_predictions h s).1 = s.predictions) ∧
    (s.predictions = [] → h.predictions ≠ [] →
      (combine_predictions h s).1 = h.predictions) := by
  refine ⟨?_, ?_, ?_⟩
  · intro h1 h2
    have e1 : h.predictions.isEmpty = false := by
      simpa [List.isEmpty_iff] using h1
    have e2 : s.predictions.isEmpty = false := by
      simpa [List.isEmpty_iff] using h2
    simp only [combine_predictions, e1, e2, Bool.and_self, Bool.false_and,
      Bool.and_false, if_false]
    constructor
    · exact List.length_zipWith _ _ _
    · intro i a b ha hb
      exact zipWith_get?_eq _ _ _ _ _ _ ha hb
  · intro h1 h2
    have e2 : s.predictions.isEmpty = false := by
      simpa [List.isEmpty_iff] using h2
    simp [combine_predictions, h1, e2]
  · intro h1 h2
    have e1 : h.predictions.isEmpty = false := by
      simpa [List.isEmpty_iff] using h2
    simp [combine_predictions, h1, e1]

theorem c5_combine_shape_witness :
    (([10, 20] : List ℚ) ≠ [] ∧ ([30] : List ℚ) ≠ []) ∧
    (combine_predictions ⟨some 1, [10, 20]⟩ ⟨some 50, some 50, [30]⟩).1.length =
      min ([10, 20] : List ℚ).length ([30] : List ℚ).length ∧
    (combine_predictions ⟨some 1, [10, 20]⟩ ⟨some 50, some 50, [30]⟩).1.get? 0 =
      some (round2 (10 * (combine_predictions ⟨some 1, [10, 20]⟩ ⟨some 50, some 50, [30]⟩).2.1 +
        30 * (combine_predictions ⟨some 1, [10, 20]⟩ ⟨some 50, some 50, [30]⟩).2.2)) := by
  have base := (c5_combine_shape ⟨some 1, [10, 20]⟩ ⟨some 50, some 50, [30]⟩).1
    (by simp) (by simp)
  exact ⟨⟨by simp, by simp⟩, base.1, base.2 0 10 30 rfl rfl⟩

/-- C6: whenever MAE ≥ 0 and confidence ∈ [0,100], the weight pair
combine_predictions returns sums to 1 within 1e-9 (in fact exactly):
the normalization denominator 1/(1+MAE) + confidence/100 is strictly
positive, so the 0.7/0.3 default is never taken under these hypotheses,
and the full-weight branches sum to 1 outright. -/
theorem c6_weights_sum_one (h : HistoricalData) (s : SentimentData)
    (hm : 0 ≤ h.mae.getD 1) (hc0 : 0 ≤ s.confidence.getD 50)
    (hc1 : s.confidence.getD 50 ≤ 100) :
    |(combine_predictions h s).2.1 + (combine_predictions h s).2.2 - 1| ≤
      1 / 1000000000 := by
  have hacc : (0:ℚ) < 1 / (1 + h.mae.getD 1) := by
    have : (0:ℚ) < 1 + h.mae.getD 1 := by linarith
    positivity
  have hconf : (0:ℚ) ≤ s.confidence.getD 50 / 100 := by linarith
  have htot : (0:ℚ) < 1 / (1 + h.mae.getD 1) + s.confidence.getD 50 / 100 := by
    linarith
  have hsum : (combine_predictions h s).2.1 + (combine_predictions h s).2.2 = 1 := by
    simp only [combine_predictions, if_pos htot]
    split
    · show 1 / (1 + h.mae.getD 1) / _ + s.confidence.getD 50 / 100 / _ = 1
      rw [div_add_div_same, div_self (ne_of_gt htot)]
    · split
      · norm_num
      · split
        · norm_num
        · show 1 / (1 + h.mae.getD 1) / _ + s.confidence.getD 50 / 100 / _ = 1
          rw [div_add_div_same, div_self (ne_of_gt htot)]
  rw [hsum]
  norm_num

theorem c6_weights_sum_one_witness :
    (0:ℚ) ≤ ((⟨some 3, [5]⟩ : HistoricalData)).mae.getD 1 ∧
    (0:ℚ) ≤ ((⟨some 40, some 50, []⟩ : SentimentData)).confidence.getD 50 ∧
    ((⟨some 40, some 50, []⟩ : SentimentData)).confidence.getD 50 ≤ 100 ∧
    |(combine_predictions ⟨some 3, [5]⟩ ⟨some 40, some 50, []⟩).2.1 +
      (combine_predictions ⟨some 3, [5]⟩ ⟨some 40, some 50, []⟩).2.2 - 1| ≤
      1 / 1000000000 :=
  ⟨by norm_num, by norm_num, by norm_num,
   c6_weights_sum_one ⟨some 3, [5]⟩ ⟨some 40, some 50, []⟩
     (by norm_num) (by norm_num) (by norm_num)⟩

end HybridPredictor

namespace CurrencyUtils

lemma rateValid_pos {r : ℚ} (h : rateValid r) : 0 < r := by
  rcases h with ⟨h1, _⟩ | rfl
  · linarith
  · norm_num

/-- Every candidate the fetch chain can return passed a source band
check. -/
def bandOk (o : Option ℚ) : Prop := ∀ x, o = some x → 70 < x ∧ x < 100

lemma bandOk_orElse {o1 o2 : Option ℚ} (h1 : bandOk o1) (h2 : bandOk o2) :
    bandOk (o1.orElse (fun _ => o2)) := by
  cases o1 with
  | none => simpa [Option.orElse] using h2
  | some r => simpa [Option.orElse] using h1

lemma bandOk_getD_valid {o : Option ℚ} (h : bandOk o) : rateValid (o.getD 83) := by
  cases o with
  | none => right; rfl
  | some r => left; exact h r rfl

lemma fetch_live_exchange_rate_valid (m1 m2 m3 m4 : Option ℚ) :
    rateValid (fetch_live_exchange_rate m1 m2 m3 m4) := by
  have k1 : bandOk (m1.bind (fun rate =>
      if 70 < rate ∧ rate < 100 then some rate else none)) := by
    intro x hx
    cases m1 with
    | none => simp at hx
    | some r =>
        simp only [Option.some_bind] at hx
        split at hx
        · cases hx; assumption
        · simp at hx
  have k2 : bandOk (m2.bind (fun c =>
      if c = 0 then none
      else if 70 < 1 / c ∧ 1 / c < 100 then some (1 / c) else none)) := by
    intro x hx
    cases m2 with
    | none => simp at hx
    | some c =>
        simp only [Option.some_bind] at hx
        split at hx
        · simp at hx
        · split at hx
          · cases hx; assumption
          · simp at hx
  have k3 : bandOk (m3.bind (fun rate =>
      if rate ≠ 0 ∧ 70 < rate ∧ rate < 100 then some rate else none)) := by
    intro x hx
    cases m3 with
    | none => simp at hx
    | some r =>
        simp only [Option.some_bind] at hx
        split at hx
        · cases hx
          rename_i hcond
          exact hcond.2
        · simp at hx
  have k4 : bandOk (m4.bind (fun rate =>
      if rate ≠ 0 ∧ 70 < rate ∧ rate < 100 then some rate else none)) := by
    intro x hx
    cases m4 with
    | none => simp at hx
    | some r =>
        simp only [Option.some_bind] at hx
        split at hx
        · cases hx
          rename_i hcond
          exact hcond.2
        · simp at hx
  exact bandOk_getD_valid (bandOk_orElse (bandOk_orElse (bandOk_orElse k1 k2) k3) k4)

/-- C10: one cache step of the currency module: if the cache is unset
or holds an acceptable rate, the rate returned to the price-conversion
sites is in the (70,100) sanity band or exactly the 83.0 fallback, is
strictly positive, the new cache satisfies the same invariant, and for
a non-Indian-suffix symbol the conversion multiplies the price by
exactly that rate. -/
theorem c10_rate_invariant (cache : Option ℚ) (stale : Bool)
    (m1 m2 m3 m4 : Option ℚ) (hc : cacheInv cache) :
    rateValid (get_usd_to_inr_rate cache stale m1 m2 m3 m4).1 ∧
    0 < (get_usd_to_inr_rate cache stale m1 m2 m3 m4).1 ∧
    cacheInv (get_usd_to_inr_rate cache stale m1 m2 m3 m4).2 ∧
    ∀ (p : ℚ) (sym : String), is_indian_stock sym = false →
      convert_price_to_inr p sym (get_usd_to_inr_rate cache stale m1 m2 m3 m4).1 =
        p * (get_usd_to_inr_rate cache stale m1 m2 m3 m4).1 := by
  have conv : ∀ (r p : ℚ) (sym : String), is_indian_stock sym = false →
      convert_price_to_inr p sym r = p * r := by
    intro r p sym hi
    simp [convert_price_to_inr, hi]
  unfold get_usd_to_inr_rate
  by_cases hu : (cache.isNone || stale) = true
  · have hf := fetch_live_exchange_rate_valid m1 m2 m3 m4
    simp only [hu, if_true]
    exact ⟨hf, rateValid_pos hf, hf, fun p sym hi => conv _ p sym hi⟩
  · have hnone : cache.isNone = false := by
      rcases Bool.or_eq_true_iff.not.mp hu with h
      exact Bool.eq_false_iff.mpr (fun hcontra => h (Or.inl hcontra))
    obtain ⟨r, rfl⟩ : ∃ r, cache = some r := by
      cases cache with
      | none => simp at hnone
      | some r => exact ⟨r, rfl⟩
    have hr : rateValid r := hc
    simp only [hu, if_false, Option.getD_some]
    exact ⟨hr, rateValid_pos hr, hc, fun p sym hi => conv _ p sym hi⟩

theorem c10_rate_invariant_witness :
    cacheInv (none : Option ℚ) ∧
    rateValid (get_usd_to_inr_rate none true (some 85) none none none).1 ∧
    0 < (get_usd_to_inr_rate none true (some 85) none none none).1 ∧
    cacheInv (get_usd_to_inr_rate none true (some 85) none none none).2 := by
  have base := c10_rate_invariant none true (some 85) none none none trivial
  exact ⟨trivial, base.1, base.2.1, base.2.2.1⟩

end CurrencyUtils

namespace HistoricalPredictor

/-- C7 counterexample: on an empty price history, predict returns the
Python None value — there is no {success: false, message} dictionary to
inspect, contradicting the claimed structured-failure shape. -/
theorem c7_insufficient_returns_none_cex :
    predict ([] : List PriceBar) = none := rfl

/-- C7 amended: if the history is empty or yields fewer than 31 feature
rows (so no training window exists), predict returns None — the failure
is a null result, not a {success: false, message} record — and, the
branch being an ordinary early return inside the try, no exception
escapes the interface. -/
theorem c7_insufficient_data_none (df : List PriceBar)
    (h : df = [] ∨ featureRowCount df < 31) :
    predict df = none := by
  rcases h with rfl | h
  · rfl
  · have hz : numSequences df = 0 := Nat.sub_eq_zero_of_le (by omega)
    simp [predict, hz]

unseal Nat.gcd Rat.mul Rat.add Rat.inv Rat.sub in
theorem c7_insufficient_data_none_witness :
    (List.replicate 40 (⟨100, 1000⟩ : PriceBar) = [] ∨
      featureRowCount (List.replicate 40 ⟨100, 1000⟩) < 31) ∧
    predict (List.replicate 40 ⟨100, 1000⟩) = none :=
  ⟨Or.inr (by decide),
   c7_insufficient_data_none (List.replicate 40 ⟨100, 1000⟩) (Or.inr (by decide))⟩

end HistoricalPredictor

namespace SentimentAnalyzer

lemma computeStats_short_current (hist : List PriceBar) (vol cpInfo : ℚ)
    (h : ¬ 20 < hist.length) :
    (computeStats hist vol cpInfo).current_price = cpInfo := by
  simp [computeStats, h]

lemma pathB_success_iff (symbol : String) (rate : ℚ) (hist : List PriceBar)
    (st : Stats) :
    ((pathB symbol rate hist st).success = true ↔ hist ≠ []) := by
  cases hist with
  | nil =>
      constructor
      · intro h; exact Bool.noConfusion h
      · intro h; exact absurd rfl h
  | cons b bs =>
      constructor
      · intro _; exact List.cons_ne_nil b bs
      · intro _; rfl

lemma pathA_success_iff (symbol : String) (rate : ℚ) (hist : List PriceBar)
    (st : Stats) (sents : List ℚ) (sentStd : ℚ) :
    ((pathA symbol rate hist st sents sentStd).success = true ↔
      ¬(hist.length ≤ 20 ∧ st.current_price = 0) ∧ hist ≠ []) := by
  by_cases hg : hist.length ≤ 20 ∧ st.current_price = 0
  · have hs : (pathA symbol rate hist st sents sentStd).success = false := by
      simp only [pathA]
      rw [if_pos hg]
      rfl
    rw [hs]
    exact iff_of_false (by simp) (fun hcontra => hcontra.1 hg)
  · cases hist with
    | nil =>
        have hs : (pathA symbol rate [] st sents sentStd).success = false := by
          simp only [pathA]
          rw [if_neg hg]
          rfl
        rw [hs]
        exact iff_of_false (by simp) (fun hcontra => hcontra.2 rfl)
    | cons b bs =>
        have hs : (pathA symbol rate (b :: bs) st sents sentStd).success = true := by
          simp only [pathA]
          rw [if_neg hg]
          rfl
        rw [hs]
        exact iff_of_true rfl ⟨hg, List.cons_ne_nil b bs⟩

lemma pathB_sentiment_score_eq (symbol : String) (rate : ℚ) (hist : List PriceBar)
    (st : Stats) (hne : hist.isEmpty = false) :
    (pathB symbol rate hist st).sentiment_score =
      round0 (sentimentScoreOf (pathBVotes st hist)) := by
  simp only [pathB]
  rw [if_neg (by simp [hne])]

lemma pathA_sentiment_score_eq (symbol : String) (rate : ℚ) (hist : List PriceBar)
    (st : Stats) (sents : List ℚ) (sentStd : ℚ)
    (hg : ¬(hist.length ≤ 20 ∧ st.current_price = 0)) (hne : hist.isEmpty = false) :
    (pathA symbol rate hist st sents sentStd).sentiment_score =
      round0 (sentimentScoreOf (pathAVotes (if sents.isEmpty then 0 else listMean sents)
        sents.length st hist)) := by
  simp only [pathA]
  rw [if_neg hg, if_neg (by simp [hne])]

/-- C8 counterexample: on an empty price history (and no articles),
analyze returns a result with success = false — the IndexError from
tail(10).iloc[0] is caught and surfaced as an error dictionary, not as
a degraded success. -/
theorem c8_empty_history_failure_cex :
    (analyze "AAPL" 83 ([] : List PriceBar) [] 0 0 0).success = false := rfl

/-- C8 amended: analyze never raises — the boundary try/except converts
each reachable exception into a structured failure — and it returns
success = true exactly when the history is non-empty and, on the
articles path, the line-568 division cannot raise: either more than 20
bars (current_price is then a numpy scalar, which cannot raise) or a
nonzero info fallback price.  An empty history (IndexError) and the
articles path with at most 20 bars and a zero fallback price
(ZeroDivisionError) yield success = false, not a low-confidence
success. -/
theorem c8_success_characterization (symbol : String) (rate : ℚ)
    (hist : List PriceBar) (arts : List ℚ) (vol sentStd cpInfo : ℚ) :
    ((analyze symbol rate hist arts vol sentStd cpInfo).success = true ↔
      hist ≠ [] ∧ (arts = [] ∨ 20 < hist.length ∨ cpInfo ≠ 0)) := by
  by_cases ha : arts.isEmpty
  · have ha' : arts = [] := by
      cases arts with
      | nil => rfl
      | cons a as => simp at ha
    simp only [analyze, if_pos ha]
    rw [pathB_success_iff]
    constructor
    · intro h; exact ⟨h, Or.inl ha'⟩
    · intro h; exact h.1
  · simp only [analyze, if_neg ha]
    rw [pathA_success_iff]
    have ha' : arts ≠ [] := by
      cases arts with
      | nil => simp at ha
      | cons a as => exact List.cons_ne_nil a as
    constructor
    · rintro ⟨hg, hne⟩
      refine ⟨hne, ?_⟩
      by_cases hl : 20 < hist.length
      · exact Or.inr (Or.inl hl)
      · by_cases hc : cpInfo = 0
        · exact absurd ⟨not_lt.mp hl,
            by rw [computeStats_short_current hist vol cpInfo hl, hc]⟩ hg
        · exact Or.inr (Or.inr hc)
    · rintro ⟨hne, hd⟩
      refine ⟨?_, hne⟩
      rintro ⟨hl, hcp0⟩
      rcases hd with hd | hd | hd
      · exact ha' hd
      · exact absurd hd (not_lt.mpr hl)
      · exact hd (by
          rw [← computeStats_short_current hist vol cpInfo (not_lt.mpr hl)]
          exact hcp0)

end SentimentAnalyzer

namespace HistoricalPredictor

lemma get?_replicate {α : Type} (a : α) :
    ∀ (n i : ℕ), i < n → (List.replicate n a).get? i = some a := by
  intro n
  induction n with
  | zero => intro i h; omega
  | succ m ih =>
      intro i h
      cases i with
      | zero => rfl
      | succ k =>
          simpa [List.replicate_succ] using ih k (by omega)

lemma closeAt_lt_length {df : List PriceBar} {i : ℕ}
    (h : (closeAt df i).isSome) : i < df.length := by
  by_contra hc
  rw [closeAt, List.get?_eq_none.mpr (by omega)] at h
  simp at h

lemma closeAt_replicate {c v : ℚ} {n i : ℕ} (h : i < n) :
    closeAt (List.replicate n ⟨c, v⟩) i = some c := by
  have hl : i < (List.replicate n (⟨c, v⟩ : PriceBar)).length := by
    simpa using h
  rw [closeAt, get?_replicate _ n i (by simpa using hl)]
  rfl

lemma deltaAt_flat {c v : ℚ} {n i : ℕ}
    (h : (deltaAt (List.replicate n ⟨c, v⟩) i).isSome) :
    deltaAt (List.replicate n ⟨c, v⟩) i = some 0 := by
  unfold deltaAt at h ⊢
  split at h
  · rename_i hi
    rw [if_pos hi]
    have h1 : (closeAt (List.replicate n (⟨c, v⟩ : PriceBar)) i).isSome := by
      cases hcl : closeAt (List.replicate n (⟨c, v⟩ : PriceBar)) i with
      | none => rw [hcl] at h; simp at h
      | some x => simp
    have hn : i < n := by simpa using closeAt_lt_length h1
    rw [closeAt_replicate hn, closeAt_replicate (by omega : i - 1 < n)]
    simp
  · simp at h

lemma gainAt_flat {c v : ℚ} {n i : ℕ}
    (h : (gainAt (List.replicate n ⟨c, v⟩) i).isSome) :
    gainAt (List.replicate n ⟨c, v⟩) i = some 0 := by
  unfold gainAt at h ⊢
  have hd : (deltaAt (List.replicate n (⟨c, v⟩ : PriceBar)) i).isSome := by
    cases hdl : deltaAt (List.replicate n (⟨c, v⟩ : PriceBar)) i with
    | none => rw [hdl] at h; simp at h
    | some x => simp
  rw [deltaAt_flat hd]
  norm_num

lemma lossAt_flat {c v : ℚ} {n i : ℕ}
    (h : (lossAt (List.replicate n ⟨c, v⟩) i).isSome) :
    lossAt (List.replicate n ⟨c, v⟩) i = some 0 := by
  unfold lossAt at h ⊢
  have hd : (deltaAt (List.replicate n (⟨c, v⟩ : PriceBar)) i).isSome := by
    cases hdl : deltaAt (List.replicate n (⟨c, v⟩ : PriceBar)) i with
    | none => rw [hdl] at h; simp at h
    | some x => simp
  rw [deltaAt_flat hd]
  norm_num

lemma optList_isSome_mem :
    ∀ (l : List (Option ℚ)), (optList l).isSome → ∀ o ∈ l, o.isSome := by
  intro l
  induction l with
  | nil => intro _ o ho; simp at ho
  | cons x xs ih =>
      intro h o ho
      cases x with
      | none => simp [optList] at h
      | some a =>
          rw [optList] at h
          have hxs : (optList xs).isSome := by
            cases hx : optList xs with
            | none => rw [hx] at h; simp at h
            | some t => simp
          rcases List.mem_cons.mp ho with rfl | hmem
          · simp
          · exact ih hxs o hmem

lemma optList_all_zero :
    ∀ (l : List (Option ℚ)), (∀ o ∈ l, o = some 0) →
      optList l = some (l.map (fun _ => (0:ℚ))) := by
  intro l
  induction l with
  | nil => intro _; rfl
  | cons x xs ih =>
      intro h
      have hx : x = some 0 := h x (List.mem_cons_self x xs)
      subst hx
      rw [optList, ih (fun o ho => h o (List.mem_cons_of_mem _ ho))]
      rfl

lemma sum_map_zero {α : Type} (l : List α) : (l.map (fun _ => (0:ℚ))).sum = 0 := by
  induction l with
  | nil => rfl
  | cons x xs ih => simp [ih]

lemma rolling_mean_zero {w i : ℕ} {col : ℕ → Option ℚ}
    (hs : (rolling w col listMean i).isSome)
    (hz : ∀ j, (col j).isSome → col j = some 0) :
    rolling w col listMean i = some 0 := by
  unfold rolling at hs ⊢
  split at hs
  · rename_i hw
    rw [if_pos hw]
    have hopt : (optList ((List.range w).map (fun j => col (i + 1 - w + j)))).isSome := by
      cases ho : optList ((List.range w).map (fun j => col (i + 1 - w + j))) with
      | none => rw [ho] at hs; simp at hs
      | some t => simp
    have hall : ∀ o ∈ (List.range w).map (fun j => col (i + 1 - w + j)), o = some 0 := by
      intro o ho
      rcases List.mem_map.mp ho with ⟨j, _, rfl⟩
      exact hz _ (optList_isSome_mem _ hopt _ ho)
    rw [optList_all_zero _ hall]
    show some (listMean _) = some 0
    rw [listMean, sum_map_zero, zero_div]
  · simp at hs

lemma rsiAt_flat {c v : ℚ} {n i : ℕ}
    (h : (rsiAt (List.replicate n ⟨c, v⟩) i).isSome) :
    rsiAt (List.replicate n ⟨c, v⟩) i = some 0 := by
  unfold rsiAt at h ⊢
  have hg : (gainAvg (List.replicate n (⟨c, v⟩ : PriceBar)) i).isSome := by
    cases hx : gainAvg (List.replicate n (⟨c, v⟩ : PriceBar)) i with
    | none => rw [hx] at h; simp at h
    | some t => simp
  have hl : (lossAvg (List.replicate n (⟨c, v⟩ : PriceBar)) i).isSome := by
    cases hx : lossAvg (List.replicate n (⟨c, v⟩ : PriceBar)) i with
    | none => rw [gainAvg] at hg
              rw [hx] at h
              cases hy : rolling 14 (gainAt (List.replicate n (⟨c, v⟩ : PriceBar))) listMean i with
              | none => rw [gainAvg] at h; rw [hy] at h; simp at h
              | some t => rw [gainAvg, hy] at h; simp at h
    | some t => simp
  have hg0 : gainAvg (List.replicate n (⟨c, v⟩ : PriceBar)) i = some 0 :=
    rolling_mean_zero hg (fun j hj => gainAt_flat hj)
  have hl0 : lossAvg (List.replicate n (⟨c, v⟩ : PriceBar)) i = some 0 :=
    rolling_mean_zero hl (fun j hj => lossAt_flat hj)
  rw [hg0, hl0]
  norm_num

lemma emaFrom_const (a c : ℚ) :
    ∀ k, emaFrom a c (List.replicate k c) = List.replicate k c := by
  intro k
  induction k with
  | zero => rfl
  | succ m ih =>
      have hy : (1 - a) * c + a * c = c := by ring
      simp only [List.replicate_succ, emaFrom, hy]
      rw [ih]

lemma emaList_const (a c : ℚ) (n : ℕ) :
    emaList a (List.replicate n c) = List.replicate n c := by
  cases n with
  | zero => rfl
  | succ m =>
      simp only [List.replicate_succ, emaList]
      rw [emaFrom_const]

lemma zipWith_sub_replicate (c : ℚ) :
    ∀ n, List.zipWith (fun a b => a - b) (List.replicate n c) (List.replicate n c) =
      List.replicate n (0:ℚ) := by
  intro n
  induction n with
  | zero => rfl
  | succ m ih => simp only [List.replicate_succ, List.zipWith_cons_cons, ih, sub_self]

lemma macdList_flat (c v : ℚ) (n : ℕ) :
    macdList (List.replicate n ⟨c, v⟩) = List.replicate n 0 := by
  unfold macdList closes
  rw [List.map_replicate]
  show List.zipWith _ (emaList (2/13) (List.replicate n c)) (emaList (2/27) (List.replicate n c)) = _
  rw [emaList_const, emaList_const, zipWith_sub_replicate]

lemma macdAt_flat {c v : ℚ} {n i : ℕ}
    (h : (macdAt (List.replicate n ⟨c, v⟩) i).isSome) :
    macdAt (List.replicate n ⟨c, v⟩) i = some 0 := by
  unfold macdAt at h ⊢
  rw [macdList_flat] at h ⊢
  have hn : i < n := by
    by_contra hc
    rw [List.get?_eq_none.mpr (by simpa using (by omega : n ≤ i))] at h
    simp at h
  exact get?_replicate _ n i hn

lemma momentumAt_flat {c v : ℚ} {n i : ℕ}
    (h : (momentumAt (List.replicate n ⟨c, v⟩) i).isSome) :
    momentumAt (List.replicate n ⟨c, v⟩) i = some 0 := by
  unfold momentumAt at h ⊢
  split at h
  · rename_i hi
    rw [if_pos hi]
    have h1 : (closeAt (List.replicate n (⟨c, v⟩ : PriceBar)) i).isSome := by
      cases hcl : closeAt (List.replicate n (⟨c, v⟩ : PriceBar)) i with
      | none => rw [hcl] at h; simp at h
      | some x => simp
    have hn : i < n := by simpa using closeAt_lt_length h1
    rw [closeAt_replicate hn, closeAt_replicate (by omega : i - 10 < n)]
    simp
  · simp at h

unseal Nat.gcd Rat.mul Rat.add Rat.inv Rat.sub in
/-- C2 counterexample: on a flat 60-bar series the first retained row
has RSI exactly 0 (the zero average loss is replaced by 0.001, giving
rs = 0 and RSI = 100 - 100/1), which is not within any reasonable
epsilon of the claimed 50. -/
theorem c2_flat_rsi_zero_cex :
    retainedRow (List.replicate 60 ⟨100, 1000⟩) 49 = true ∧
    rsiAt (List.replicate 60 ⟨100, 1000⟩) 49 = some 0 ∧
    ¬ (|(0:ℚ) - 50| ≤ 25) := by
  refine ⟨by decide, by decide, by norm_num⟩

/-- C2 amended: on a price series with constant close, every retained
feature row has RSI = 0 (not ≈ 50: gain = 0 and loss.replace(0, 0.001)
give rs = 0, so RSI = 100 - 100/(1+0) = 0), momentum = 0 and MACD = 0. -/
theorem c2_flat_series_indicators (n : ℕ) (c v : ℚ) (i : ℕ)
    (h : retainedRow (List.replicate n ⟨c, v⟩) i = true) :
    rsiAt (List.replicate n ⟨c, v⟩) i = some 0 ∧
    momentumAt (List.replicate n ⟨c, v⟩) i = some 0 ∧
    macdAt (List.replicate n ⟨c, v⟩) i = some 0 := by
  simp only [retainedRow, Bool.and_eq_true] at h
  exact ⟨rsiAt_flat h.1.1.1.1.1.1.1.1.2, momentumAt_flat h.1.2,
    macdAt_flat h.1.1.1.1.1.1.1.2⟩

unseal Nat.gcd Rat.mul Rat.add Rat.inv Rat.sub in
theorem c2_flat_series_indicators_witness :
    retainedRow (List.replicate 55 ⟨100, 1000⟩) 50 = true ∧
    rsiAt (List.replicate 55 ⟨100, 1000⟩) 50 = some 0 ∧
    momentumAt (List.replicate 55 ⟨100, 1000⟩) 50 = some 0 ∧
    macdAt (List.replicate 55 ⟨100, 1000⟩) 50 = some 0 := by
  have h : retainedRow (List.replicate 55 ⟨100, 1000⟩) 50 = true := by decide
  have base := c2_flat_series_indicators 55 100 1000 50 h
  exact ⟨h, base.1, base.2.1, base.2.2⟩

end HistoricalPredictor

namespace SentimentAnalyzer

unseal Nat.gcd Rat.mul Rat.add Rat.inv Rat.sub in
/-- C1: evaluation at Path A failing inputs (21 flat bars at close 100,
one article of polarity 1).  For the Indian-suffix symbol TCS.NS,
convert_prices_array_to_inr returns the raw prediction list object
itself, so the sentiment-consistent prices the second loop appends are
visible through the alias and the curve has 28 entries, not the claimed
14: the first 14 come from the pre-vote news/performance/volatility
impact with 3%/day decay (entry 1 is 104.85 = 100*(1 + 0.05*0.97)) and
entry 15 is the day-1 sentiment-consistent price 100.31.  For a foreign
symbol (AAPL, rate 1) the binding is a fresh copy made before the
appends: 14 entries, but still the stale 3%/day curve (entry 1 again
104.85), where the claimed formula with the capped sentiment impact
(sentiment_score = 52) and momentum term gives 100.31 for day 1.  The
reported predicted_change_percent (0.32) comes from the new impact and
contradicts the returned curve in both cases. -/
theorem c1_pathA_curve_uses_stale_impact :
    (analyze "TCS.NS" 83 (List.replicate 21 ⟨100, 1000⟩) [1] 0 0 0).predictions.length = 28 ∧
    (analyze "TCS.NS" 83 (List.replicate 21 ⟨100, 1000⟩) [1] 0 0 0).predictions.get? 0 =
      some (10485/100) ∧
    (analyze "TCS.NS" 83 (List.replicate 21 ⟨100, 1000⟩) [1] 0 0 0).predictions.get? 14 =
      some (10031/100) ∧
    (analyze "TCS.NS" 83 (List.replicate 21 ⟨100, 1000⟩) [1] 0 0 0).sentiment_score = 52 ∧
    (analyze "TCS.NS" 83 (List.replicate 21 ⟨100, 1000⟩) [1] 0 0 0).predicted_change_percent =
      8/25 ∧
    (analyze "AAPL" 1 (List.replicate 21 ⟨100, 1000⟩) [1] 0 0 0).predictions.length = 14 ∧
    (analyze "AAPL" 1 (List.replicate 21 ⟨100, 1000⟩) [1] 0 0 0).predictions.get? 0 =
      some (10485/100) ∧
    round2 (100 * (1 + (((52:ℚ) - 50) / 50 * (2/25) + 0 / 100 * (1/50)) * (1 - 1 * (1/25)))) =
      10031/100 ∧
    ((10485:ℚ)/100 ≠ 10031/100) := by
  refine ⟨by decide, by decide, by decide, by decide, by decide, by decide, by decide,
    by decide, by decide⟩

unseal Nat.gcd Rat.mul Rat.add Rat.inv Rat.sub in
/-- C9 counterexample: on Path A with one article the indicator weights
sum to min(1/20, 1)*0.4 + 0.15 + 0.15 + 0.10 + 0.10 = 0.52, not 1 —
the weights are not normalized. -/
theorem c9_pathA_weights_not_normalized_cex :
    weightSum (pathAVotes 1 1 ⟨100, 0, 0, 0, 0, 0, 0⟩ (List.replicate 21 ⟨100, 1000⟩)) =
      13/25 ∧ ((13:ℚ)/25 ≠ 1) := by
  refine ⟨by decide, by decide⟩

/-- C9 amended: Path B weights sum to exactly 1; Path A weights sum to
1/2 + 0.4*min(articles/20, 1) ≤ 0.9 and are never normalized; in both
paths, whenever the path returns a success result, the reported
sentiment_score is the rounded
clamp(0, 100, 50 + 100*(Σ positive weights − Σ negative weights)) of
the path's votes (Path A additionally requires the line-568 division
not to raise: more than 20 bars or a nonzero info fallback price). -/
theorem c9_weight_sums_and_score (st : Stats) (hist : List PriceBar)
    (avg : ℚ) (nA : ℕ) (symbol : String) (rate : ℚ) (arts : List ℚ)
    (vol sentStd cpInfo : ℚ) :
    weightSum (pathBVotes st hist) = 1 ∧
    weightSum (pathAVotes avg nA st hist) = 1/2 + min ((nA : ℚ)/20) 1 * (2/5) ∧
    weightSum (pathAVotes avg nA st hist) ≤ 9/10 ∧
    sentimentScoreOf (pathBVotes st hist) =
      max 0 (min 100 ((posScore (pathBVotes st hist) -
        negScore (pathBVotes st hist)) * 100 + 50)) ∧
    (hist ≠ [] → arts = [] →
      (analyze symbol rate hist arts vol sentStd cpInfo).sentiment_score =
        round0 (sentimentScoreOf (pathBVotes (computeStats hist vol cpInfo) hist))) ∧
    (hist ≠ [] → arts ≠ [] → (20 < hist.length ∨ cpInfo ≠ 0) →
      (analyze symbol rate hist arts vol sentStd cpInfo).sentiment_score =
        round0 (sentimentScoreOf (pathAVotes
          (if (arts.take 20).isEmpty then 0 else listMean (arts.take 20))
          (arts.take 20).length (computeStats hist vol cpInfo) hist))) := by
  refine ⟨?_, ?_, ?_, rfl, ?_, ?_⟩
  · simp only [weightSum, pathBVotes, List.map_cons, List.map_nil, List.sum_cons,
      List.sum_nil]
    norm_num
  · simp only [weightSum, pathAVotes, List.map_cons, List.map_nil, List.sum_cons,
      List.sum_nil]
    ring
  · have hm : min ((nA : ℚ)/20) 1 ≤ 1 := min_le_right _ _
    have hm0 : 0 ≤ min ((nA : ℚ)/20) 1 := le_min (by positivity) (by norm_num)
    have hsum : weightSum (pathAVotes avg nA st hist) =
        1/2 + min ((nA : ℚ)/20) 1 * (2/5) := by
      simp only [weightSum, pathAVotes, List.map_cons, List.map_nil, List.sum_cons,
        List.sum_nil]
      ring
    rw [hsum]
    nlinarith
  · intro h1 h2
    subst h2
    cases hist with
    | nil => exact absurd rfl h1
    | cons b bs => rfl
  · intro h1 h2 h3
    have ha : arts.isEmpty = false := by
      cases arts with
      | nil => exact absurd rfl h2
      | cons a as => rfl
    have hne : hist.isEmpty = false := by
      cases hist with
      | nil => exact absurd rfl h1
      | cons b bs => rfl
    have hg : ¬(hist.length ≤ 20 ∧
        (computeStats hist vol cpInfo).current_price = 0) := by
      rintro ⟨hl, hcp⟩
      rcases h3 with h3 | h3
      · exact absurd h3 (not_lt.mpr hl)
      · exact h3 (by
          rw [← computeStats_short_current hist vol cpInfo (not_lt.mpr hl)]
          exact hcp)
    have step := pathA_sentiment_score_eq symbol rate hist
      (computeStats hist vol cpInfo) (arts.take 20) sentStd hg hne
    simp only [analyze, ha, Bool.false_eq_true, if_false]
    exact step

unseal Nat.gcd Rat.mul Rat.add Rat.inv Rat.sub in
theorem c9_weight_sums_and_score_witness :
    (List.replicate 21 (⟨100, 1000⟩ : PriceBar) ≠ []) ∧ (([1] : List ℚ) ≠ []) ∧
    (20 < (List.replicate 21 (⟨100, 1000⟩ : PriceBar)).length ∨ (0:ℚ) ≠ 0) ∧
    (analyze "TCS.NS" 83 (List.replicate 21 ⟨100, 1000⟩) [1] 0 0 0).sentiment_score =
      round0 (sentimentScoreOf (pathAVotes
        (if (([1] : List ℚ).take 20).isEmpty then 0 else listMean (([1] : List ℚ).take 20))
        (([1] : List ℚ).take 20).length
        (computeStats (List.replicate 21 ⟨100, 1000⟩) 0 0)
        (List.replicate 21 ⟨100, 1000⟩))) := by
  refine ⟨by simp, by simp, Or.inl (by simp), ?_⟩
  exact (c9_weight_sums_and_score (computeStats (List.replicate 21 ⟨100, 1000⟩) 0 0)
    (List.replicate 21 ⟨100, 1000⟩) 0 0 "TCS.NS" 83 [1] 0 0 0).2.2.2.2.2
    (by simp) (by simp) (Or.inl (by simp))

end SentimentAnalyzer
